import Mathlib

/-!
# Verification of the `nestjs-better-auth-fastify` adapter layer

Shallow embedding of the adapter's guard, exception filter, hook registrar,
CORS setup and async-configuration validation, together with proofs of the
behavioural properties stated in the package's specification.

Source files embedded:
- `src/auth.guard.ts` (`AuthGuard.canActivate`)
- `src/auth.filter.ts` (`AuthFilter.catch`)
- `src/auth.module.ts` (`AuthModule.setupHookMethod`, `AuthModule.setupCors`,
  `AuthModule.setupDynamicCors`)
- `src/auth.service.ts` bundle (`AuthModule.validateAsyncOptions`,
  `AuthModule.createAsyncProviders`, `AuthModule.forRootAsync`)
-/

namespace NestBetterAuth

/-! ## Better Auth `APIError`

`better-auth`'s `APIError` carries a status name (e.g. `'UNAUTHORIZED'`), a
numeric `statusCode`, and an optional `body` with optional `message` and
`code` fields. -/

/-- Body of a Better Auth `APIError`: both fields may be absent. -/
structure APIErrorBody where
  message : Option String
  code : Option String
deriving DecidableEq, Repr

/-- Better Auth `APIError`: status name, numeric status code, optional body. -/
structure APIErr where
  status : String
  statusCode : Nat
  body : Option APIErrorBody
deriving DecidableEq, Repr

/-- The error thrown by `AuthGuard.canActivate` when authentication is
required but no session resolved:
`new APIError('UNAUTHORIZED', { message: 'Authentication required to access this resource' })`.
`better-call` maps the status name `UNAUTHORIZED` to status code 401. -/
def authenticationRequiredError : APIErr :=
  { status := "UNAUTHORIZED"
    statusCode := 401
    body := some { message := some "Authentication required to access this resource"
                   code := none } }

/-! ## Guard embedding (`src/auth.guard.ts`)

`canActivate` reads the `Public` / `Optional` route metadata via
`reflector.getAllAndOverride(Decorator, [handler, class])`, which returns the
first non-`undefined` value among handler metadata then class metadata; the
guard then tests that value for truthiness.  Sessions and users are opaque to
this layer, so the embedding is parametric in the session type `S`, the user
type `U` and the provider-error type `E`. -/

/-- `Reflector.getAllAndOverride` over `[handler, class]` followed by the
guard's truthiness test: the first non-`undefined` metadata value wins;
absent metadata is falsy. -/
def getAllAndOverride (handlerMeta classMeta : Option Bool) : Bool :=
  (handlerMeta.orElse fun _ => classMeta).getD false

/-- Mutable request fields written by the guard.  The outer `Option` records
whether the field has been assigned at all (JS `undefined` before the guard
runs); the inner `Option` is the assigned value, where `none` is JS `null`. -/
structure RequestState (S U : Type) where
  session : Option (Option S)
  user : Option (Option U)
deriving DecidableEq, Repr

/-- A fresh request: neither `request.session` nor `request.user` assigned. -/
def RequestState.fresh (S U : Type) : RequestState S U :=
  { session := none, user := none }

/-- Errors escaping `canActivate`: either an error propagated from the
provider's `getSession` call, or the guard's own `APIError`. -/
inductive GuardError (E : Type) where
  | provider (e : E)
  | api (err : APIErr)
deriving DecidableEq, Repr

/-- Result of one `canActivate` run: the settled promise (`Except.ok b` for a
resolution with `b`, `Except.error` for a rejection), the number of
`auth.api.getSession` invocations performed, and the final request state. -/
structure GuardResult (E S U : Type) where
  outcome : Except (GuardError E) Bool
  sessionCalls : Nat
  request : RequestState S U
deriving Repr

/-- Embedding of `AuthGuard.canActivate` (src/auth.guard.ts, lines 108-142).

Inputs: the `Public` and `Optional` metadata on the handler and on the class,
the behaviour of the single `auth.api.getSession` call (`Except.error e` if
the provider rejects, `Except.ok (some s)` / `Except.ok none` for a resolved
session or `null`), the projection `userOf` embedding `session.user`, and the
incoming request state.

Control flow mirrors the source exactly: public early-return before any
provider call; one `getSession` call otherwise; attach `request.session` and
`request.user` (`session?.user ?? null`); then the `Optional` check, the
missing-session throw, and the final `return true`. -/
def canActivate {E S U : Type}
    (publicHandlerMeta publicClassMeta optionalHandlerMeta optionalClassMeta : Option Bool)
    (getSessionResult : Except E (Option S)) (userOf : S → U)
    (req : RequestState S U) : GuardResult E S U :=
  let isPublic := getAllAndOverride publicHandlerMeta publicClassMeta
  if isPublic then
    { outcome := .ok true, sessionCalls := 0, request := req }
  else
    match getSessionResult with
    | .error e =>
        { outcome := .error (.provider e), sessionCalls := 1, request := req }
    | .ok session =>
        let req' : RequestState S U :=
          { req with session := some session, user := some (session.map userOf) }
        let isOptional := getAllAndOverride optionalHandlerMeta optionalClassMeta
        if isOptional && session.isNone then
          { outcome := .ok true, sessionCalls := 1, request := req' }
        else if session.isNone then
          { outcome := .error (.api authenticationRequiredError), sessionCalls := 1
            request := req' }
        else
          { outcome := .ok true, sessionCalls := 1, request := req' }

/-! ## Guard theorems -/

/-- Claim C1: for every route marked public (resolved `Public` metadata on
the handler or its class is truthy), `canActivate` resolves `true` and the
provider's session lookup `auth.api.getSession` is never invoked. -/
theorem c1_public_allows_without_session_lookup {E S U : Type}
    (pubH pubC optH optC : Option Bool)
    (getSessionResult : Except E (Option S)) (userOf : S → U) (req : RequestState S U)
    (hpub : getAllAndOverride pubH pubC = true) :
    (canActivate pubH pubC optH optC getSessionResult userOf req).outcome = .ok true ∧
    (canActivate pubH pubC optH optC getSessionResult userOf req).sessionCalls = 0 := by
  simp [canActivate, hpub]

/-- Witness for C1 at a concrete input: `@Public()` on the handler, a
provider that would return no session. -/
theorem c1_witness :
    getAllAndOverride (some true) none = true ∧
    ((canActivate (E := Unit) (S := Unit) (U := Unit) (some true) none none none
        (.ok none) (fun u => u) (RequestState.fresh Unit Unit)).outcome = .ok true ∧
     (canActivate (E := Unit) (S := Unit) (U := Unit) (some true) none none none
        (.ok none) (fun u => u) (RequestState.fresh Unit Unit)).sessionCalls = 0) :=
  ⟨by decide,
   c1_public_allows_without_session_lookup (some true) none none none
     (.ok none) (fun u => u) (RequestState.fresh Unit Unit) (by decide)⟩

/-- Claim C2: when the route is neither public nor optional and the
provider's session lookup resolves to no session, `canActivate` rejects with
the authentication-required `APIError` (`'UNAUTHORIZED'`, message
`'Authentication required to access this resource'`). -/
theorem c2_no_session_throws_authentication_required {E S U : Type}
    (pubH pubC optH optC : Option Bool) (userOf : S → U) (req : RequestState S U)
    (hpub : getAllAndOverride pubH pubC = false)
    (hopt : getAllAndOverride optH optC = false) :
    (canActivate (E := E) pubH pubC optH optC (.ok none) userOf req).outcome =
      .error (.api authenticationRequiredError) := by
  simp [canActivate, hpub, hopt]

/-- Witness for C2 at a concrete input: undecorated route, provider resolves
`null`. -/
theorem c2_witness :
    getAllAndOverride none none = false ∧
    (canActivate (E := Unit) (S := Unit) (U := Unit) none none none none
        (.ok none) (fun u => u) (RequestState.fresh Unit Unit)).outcome =
      .error (.api authenticationRequiredError) :=
  ⟨by decide,
   c2_no_session_throws_authentication_required none none none none
     (fun u => u) (RequestState.fresh Unit Unit) (by decide) (by decide)⟩

/-- Claim C3: on a route marked optional (and not public) whose session
lookup resolves to no session, `canActivate` resolves `true` and the request
has been enriched with a null session and a null user. -/
theorem c3_optional_without_session_allows_with_null_enrichment {E S U : Type}
    (pubH pubC optH optC : Option Bool) (userOf : S → U) (req : RequestState S U)
    (hpub : getAllAndOverride pubH pubC = false)
    (hopt : getAllAndOverride optH optC = true) :
    (canActivate (E := E) pubH pubC optH optC (.ok none) userOf req).outcome = .ok true ∧
    (canActivate (E := E) pubH pubC optH optC (.ok none) userOf req).request.session =
      some none ∧
    (canActivate (E := E) pubH pubC optH optC (.ok none) userOf req).request.user =
      some none := by
  simp [canActivate, hpub, hopt]

/-- Witness for C3 at a concrete input: `@Optional()` on the handler,
provider resolves `null`. -/
theorem c3_witness :
    getAllAndOverride none none = false ∧
    getAllAndOverride (some true) none = true ∧
    ((canActivate (E := Unit) (S := Unit) (U := Unit) none none (some true) none
        (.ok none) (fun u => u) (RequestState.fresh Unit Unit)).outcome = .ok true ∧
     (canActivate (E := Unit) (S := Unit) (U := Unit) none none (some true) none
        (.ok none) (fun u => u) (RequestState.fresh Unit Unit)).request.session = some none ∧
     (canActivate (E := Unit) (S := Unit) (U := Unit) none none (some true) none
        (.ok none) (fun u => u) (RequestState.fresh Unit Unit)).request.user = some none) :=
  ⟨by decide, by decide,
   c3_optional_without_session_allows_with_null_enrichment none none (some true) none
     (fun u => u) (RequestState.fresh Unit Unit) (by decide) (by decide)⟩

/-- Claim C4: on a non-public route whose session lookup resolves to a
session `s`, the guard assigns `request.session` the very value the provider
returned (the statement is parametric in the session type, so the guard
cannot have rebuilt or copied it) and assigns `request.user` the value
`session.user`. -/
theorem c4_session_enrichment_is_identity {E S U : Type}
    (pubH pubC optH optC : Option Bool) (userOf : S → U) (req : RequestState S U)
    (s : S)
    (hpub : getAllAndOverride pubH pubC = false) :
    (canActivate (E := E) pubH pubC optH optC (.ok (some s)) userOf req).request.session =
      some (some s) ∧
    (canActivate (E := E) pubH pubC optH optC (.ok (some s)) userOf req).request.user =
      some (some (userOf s)) := by
  by_cases hopt : getAllAndOverride optH optC <;> simp [canActivate, hpub, hopt]

/-- Witness for C4 at a concrete input: session `7`, `session.user = 8`. -/
theorem c4_witness :
    getAllAndOverride none none = false ∧
    ((canActivate (E := Unit) (S := Nat) (U := Nat) none none none none
        (.ok (some 7)) (fun s => s + 1) (RequestState.fresh Nat Nat)).request.session =
      some (some 7) ∧
     (canActivate (E := Unit) (S := Nat) (U := Nat) none none none none
        (.ok (some 7)) (fun s => s + 1) (RequestState.fresh Nat Nat)).request.user =
      some (some 8)) :=
  ⟨by decide,
   c4_session_enrichment_is_identity none none none none
     (fun s => s + 1) (RequestState.fresh Nat Nat) 7 (by decide)⟩

/-- Claim C10: `canActivate` never resolves `false`: every run either
resolves `true`, or rejects with a propagated provider error, or rejects
with the guard's own authentication-required `APIError` — denial is only
ever signalled by that thrown error. -/
theorem c10_guard_never_resolves_false {E S U : Type}
    (pubH pubC optH optC : Option Bool)
    (getSessionResult : Except E (Option S)) (userOf : S → U) (req : RequestState S U) :
    (canActivate pubH pubC optH optC getSessionResult userOf req).outcome ≠ .ok false ∧
    ((canActivate pubH pubC optH optC getSessionResult userOf req).outcome = .ok true ∨
     (∃ e, (canActivate pubH pubC optH optC getSessionResult userOf req).outcome =
       .error (.provider e)) ∨
     (canActivate pubH pubC optH optC getSessionResult userOf req).outcome =
       .error (.api authenticationRequiredError)) := by
  rcases getSessionResult with e | (_ | s) <;>
    by_cases hpub : getAllAndOverride pubH pubC <;>
    by_cases hopt : getAllAndOverride optH optC <;>
    simp [canActivate, hpub, hopt]

/-! ## ISO-8601 timestamps

The exception filter stamps each error response with
`new Date().toISOString()`.  JS `toISOString` renders the calendar fields of
the instant as the fixed-width string `YYYY-MM-DDTHH:mm:ss.sssZ` (for years
0-9999), and `new Date(string)` parses exactly that grammar back.  The
embedding works on the calendar fields directly. -/

/-- Calendar fields of an instant as rendered by `toISOString` (UTC). -/
structure DateTime where
  year : Nat
  month : Nat
  day : Nat
  hour : Nat
  minute : Nat
  second : Nat
  millis : Nat
deriving DecidableEq, Repr

/-- Field ranges of a renderable instant: the ranges the ECMA-262 date-time
string grammar admits (four-digit year, month 01-12, day 01-31, hour 00-23,
minute/second 00-59, three-digit milliseconds). -/
def DateTime.Valid (d : DateTime) : Prop :=
  d.year ≤ 9999 ∧ 1 ≤ d.month ∧ d.month ≤ 12 ∧ 1 ≤ d.day ∧ d.day ≤ 31 ∧
  d.hour ≤ 23 ∧ d.minute ≤ 59 ∧ d.second ≤ 59 ∧ d.millis ≤ 999

instance (d : DateTime) : Decidable d.Valid := by
  unfold DateTime.Valid; infer_instance

/-- Decimal digit of value `d` (`'0'` … `'9'`) read back to its value. -/
def decodeDigit (c : Char) : Option Nat :=
  if '0' ≤ c ∧ c ≤ '9' then some (c.toNat - 48) else none

/-- Zero-padded fixed-width decimal rendering, most significant digit first:
the digit string of `n % 10 ^ w` of length `w`. -/
def padDigits : Nat → Nat → List Char
  | 0, _ => []
  | w + 1, n => Nat.digitChar (n / 10 ^ w) :: padDigits w (n % 10 ^ w)

/-- Read exactly `w` decimal digits, extending the accumulator `acc`. -/
def readDigitsAux : Nat → Nat → List Char → Option (Nat × List Char)
  | acc, 0, l => some (acc, l)
  | _, _ + 1, [] => none
  | acc, w + 1, c :: l =>
    match decodeDigit c with
    | some d => readDigitsAux (acc * 10 + d) w l
    | none => none

/-- Read exactly `w` decimal digits as a number, returning the rest. -/
def readDigits (w : Nat) (l : List Char) : Option (Nat × List Char) :=
  readDigitsAux 0 w l

/-- Consume one expected literal character. -/
def expectChar (c : Char) : List Char → Option (List Char)
  | [] => none
  | x :: l => if x = c then some l else none

/-- Character rendering of `toISOString`: `YYYY-MM-DDTHH:mm:ss.sssZ`. -/
def fmtISOChars (d : DateTime) : List Char :=
  padDigits 4 d.year ++ '-' ::
    (padDigits 2 d.month ++ '-' ::
      (padDigits 2 d.day ++ 'T' ::
        (padDigits 2 d.hour ++ ':' ::
          (padDigits 2 d.minute ++ ':' ::
            (padDigits 2 d.second ++ '.' ::
              (padDigits 3 d.millis ++ ['Z']))))))

/-- Model of `Date.prototype.toISOString` for years 0-9999. -/
def fmtISO (d : DateTime) : String :=
  String.mk (fmtISOChars d)

/-- Model of `new Date(string)` on the UTC date-time grammar
`YYYY-MM-DDTHH:mm:ss.sssZ`: read the seven fields at their fixed positions,
check the literal separators and the field ranges, reject anything else. -/
def parseISOChars (l : List Char) : Option DateTime := do
  let (y, l) ← readDigits 4 l
  let l ← expectChar '-' l
  let (mo, l) ← readDigits 2 l
  let l ← expectChar '-' l
  let (dy, l) ← readDigits 2 l
  let l ← expectChar 'T' l
  let (h, l) ← readDigits 2 l
  let l ← expectChar ':' l
  let (mi, l) ← readDigits 2 l
  let l ← expectChar ':' l
  let (s, l) ← readDigits 2 l
  let l ← expectChar '.' l
  let (ms, l) ← readDigits 3 l
  let l ← expectChar 'Z' l
  match l with
  | [] =>
    let dt : DateTime := ⟨y, mo, dy, h, mi, s, ms⟩
    if dt.Valid then some dt else none
  | _ => none

/-- Model of `new Date(string)` restricted to the ISO format above. -/
def parseISO (s : String) : Option DateTime :=
  parseISOChars s.data

/-- A rendered digit reads back to its value. -/
theorem decodeDigit_digitChar {d : Nat} (h : d < 10) :
    decodeDigit (Nat.digitChar d) = some d := by
  interval_cases d <;> decide

/-- Reading `w` digits off a `w`-wide rendering of `n < 10 ^ w` recovers `n`
on top of the accumulator and leaves the rest untouched. -/
theorem readDigitsAux_padDigits (w : Nat) :
    ∀ (acc n : Nat), n < 10 ^ w → ∀ (rest : List Char),
      readDigitsAux acc w (padDigits w n ++ rest) = some (acc * 10 ^ w + n, rest) := by
  induction w with
  | zero =>
    intro acc n h rest
    interval_cases n
    simp [padDigits, readDigitsAux]
  | succ k ih =>
    intro acc n h rest
    have hd : n / 10 ^ k < 10 := by
      apply Nat.div_lt_of_lt_mul
      calc n < 10 ^ (k + 1) := h
        _ = 10 ^ k * 10 := Nat.pow_succ ..
    have hmod : n % 10 ^ k < 10 ^ k := Nat.mod_lt _ (Nat.pos_pow_of_pos k (by omega))
    simp only [padDigits, List.cons_append, readDigitsAux, decodeDigit_digitChar hd,
      List.append_eq]
    rw [ih (acc * 10 + n / 10 ^ k) (n % 10 ^ k) hmod rest]
    congr 2
    have hdm := Nat.div_add_mod n (10 ^ k)
    calc (acc * 10 + n / 10 ^ k) * 10 ^ k + n % 10 ^ k
        = acc * (10 ^ k * 10) + (10 ^ k * (n / 10 ^ k) + n % 10 ^ k) := by ring
      _ = acc * 10 ^ (k + 1) + n := by rw [hdm, Nat.pow_succ]

/-- Reading `w` digits off a `w`-wide rendering of `n < 10 ^ w`. -/
theorem readDigits_padDigits (w n : Nat) (h : n < 10 ^ w) (rest : List Char) :
    readDigits w (padDigits w n ++ rest) = some (n, rest) := by
  unfold readDigits
  rw [readDigitsAux_padDigits w 0 n h rest]
  simp

/-- An expected literal character is consumed. -/
theorem expectChar_cons (c : Char) (l : List Char) :
    expectChar c (c :: l) = some l := by
  simp [expectChar]

/-- Binding a present optional value applies the continuation. -/
theorem optionBindSome {α β : Type} (a : α) (f : α → Option β) :
    (some a : Option α) >>= f = f a :=
  rfl

set_option maxHeartbeats 1600000 in
/-- Round trip: parsing a rendered valid instant recovers its fields. -/
theorem parseISO_fmtISO (d : DateTime) (h : d.Valid) :
    parseISO (fmtISO d) = some d := by
  obtain ⟨hy, hmo1, hmo2, hd1, hd2, hh, hmi, hs0, hms⟩ := h
  have h1 : d.year < 10 ^ 4 := by norm_num; omega
  have h2 : d.month < 10 ^ 2 := by norm_num; omega
  have h3 : d.day < 10 ^ 2 := by norm_num; omega
  have h4 : d.hour < 10 ^ 2 := by norm_num; omega
  have h5 : d.minute < 10 ^ 2 := by norm_num; omega
  have h6 : d.second < 10 ^ 2 := by norm_num; omega
  have h7 : d.millis < 10 ^ 3 := by norm_num; omega
  show parseISOChars (fmtISOChars d) = some d
  simp only [parseISOChars, fmtISOChars,
    readDigits_padDigits 4 d.year h1, readDigits_padDigits 2 d.month h2,
    readDigits_padDigits 2 d.day h3, readDigits_padDigits 2 d.hour h4,
    readDigits_padDigits 2 d.minute h5, readDigits_padDigits 2 d.second h6,
    readDigits_padDigits 3 d.millis h7, expectChar_cons, optionBindSome]
  rw [if_pos ⟨hy, hmo1, hmo2, hd1, hd2, hh, hmi, hs0, hms⟩]

/-! ## Exception filter embedding (`src/auth.filter.ts`)

`AuthFilter.catch` reads `exception.statusCode`, `exception.body?.message`
and `exception.body?.code`, builds the error-response record with the
current ISO timestamp and the request URL, and sends it with
`response.status(status).send(errorResponse)`. -/

/-- JSON body of the filter's HTTP error response.  `none` in `message` /
`error` embeds the JS `undefined` of a missing optional-chain result (the
field is absent from the serialized JSON). -/
structure ErrorResponse where
  statusCode : Nat
  message : Option String
  error : Option String
  timestamp : String
  path : String
deriving DecidableEq, Repr

/-- The HTTP reply the filter sends: explicit status plus JSON body. -/
structure SentReply where
  status : Nat
  body : ErrorResponse
deriving DecidableEq, Repr

/-- Embedding of `AuthFilter.catch` (src/auth.filter.ts, lines 10-28).  The
current instant (`new Date()`) and the request URL are inputs. -/
def authFilterCatch (exception : APIErr) (now : DateTime) (requestUrl : String) :
    SentReply :=
  let status := exception.statusCode
  let message := exception.body.bind fun b => b.message
  let errorCode := exception.body.bind fun b => b.code
  { status := status
    body := { statusCode := status
              message := message
              error := errorCode
              timestamp := fmtISO now
              path := requestUrl } }

/-! ## Exception filter theorems -/

/-- Claim C5: the filter's reply uses the error's `statusCode` as HTTP
status, and its JSON body is exactly `{statusCode, message, error,
timestamp, path}` with `message` / `error` drawn from the error body via
optional chaining; in particular a 401 'Invalid credentials' error keeps
status 401 and that message, and an error without a body has an absent
`message` while `statusCode` is still present. -/
theorem c5_filter_response_shape (e : APIErr) (now : DateTime) (url : String) :
    (authFilterCatch e now url).status = e.statusCode ∧
    (authFilterCatch e now url).body.statusCode = e.statusCode ∧
    (authFilterCatch e now url).body.message = (e.body.bind fun b => b.message) ∧
    (authFilterCatch e now url).body.error = (e.body.bind fun b => b.code) ∧
    (authFilterCatch e now url).body.timestamp = fmtISO now ∧
    (authFilterCatch e now url).body.path = url ∧
    (e.statusCode = 401 → (e.body.bind fun b => b.message) = some "Invalid credentials" →
      (authFilterCatch e now url).body.statusCode = 401 ∧
      (authFilterCatch e now url).body.message = some "Invalid credentials") ∧
    (e.body = none →
      (authFilterCatch e now url).body.message = none ∧
      (authFilterCatch e now url).body.statusCode = e.statusCode) := by
  refine ⟨rfl, rfl, rfl, rfl, rfl, rfl, ?_, ?_⟩
  · intro h401 hmsg
    exact ⟨by simp [authFilterCatch, h401], by simp [authFilterCatch, hmsg]⟩
  · intro hnone
    exact ⟨by simp [authFilterCatch, hnone], rfl⟩

/-- Witness for C5 at concrete inputs: a 401 'Invalid credentials' error and
a bodyless 500 error. -/
theorem c5_witness :
    ((authFilterCatch
        ⟨"UNAUTHORIZED", 401, some ⟨some "Invalid credentials", some "INVALID_CREDENTIALS"⟩⟩
        ⟨2025, 1, 15, 10, 30, 0, 0⟩ "/api/auth/sign-in").body.statusCode = 401 ∧
     (authFilterCatch
        ⟨"UNAUTHORIZED", 401, some ⟨some "Invalid credentials", some "INVALID_CREDENTIALS"⟩⟩
        ⟨2025, 1, 15, 10, 30, 0, 0⟩ "/api/auth/sign-in").body.message =
       some "Invalid credentials") ∧
    ((authFilterCatch ⟨"INTERNAL_SERVER_ERROR", 500, none⟩
        ⟨2025, 1, 15, 10, 30, 0, 0⟩ "/api/auth/error").body.message = none ∧
     (authFilterCatch ⟨"INTERNAL_SERVER_ERROR", 500, none⟩
        ⟨2025, 1, 15, 10, 30, 0, 0⟩ "/api/auth/error").body.statusCode = 500) :=
  ⟨(c5_filter_response_shape
      ⟨"UNAUTHORIZED", 401, some ⟨some "Invalid credentials", some "INVALID_CREDENTIALS"⟩⟩
      ⟨2025, 1, 15, 10, 30, 0, 0⟩ "/api/auth/sign-in").2.2.2.2.2.2.1 rfl rfl,
   (c5_filter_response_shape ⟨"INTERNAL_SERVER_ERROR", 500, none⟩
      ⟨2025, 1, 15, 10, 30, 0, 0⟩ "/api/auth/error").2.2.2.2.2.2.2 rfl⟩

/-- Claim C6: the `timestamp` of every filter response round-trips through
date parsing: `new Date(timestamp).toISOString()` equals `timestamp`. -/
theorem c6_filter_timestamp_roundtrips (e : APIErr) (now : DateTime) (url : String)
    (h : now.Valid) :
    (parseISO ((authFilterCatch e now url).body.timestamp)).map fmtISO =
      some ((authFilterCatch e now url).body.timestamp) := by
  have hts : (authFilterCatch e now url).body.timestamp = fmtISO now := rfl
  rw [hts, parseISO_fmtISO now h]
  rfl

/-- Witness for C6 at a concrete instant. -/
theorem c6_witness :
    DateTime.Valid ⟨2025, 1, 15, 10, 30, 0, 0⟩ ∧
    (parseISO ((authFilterCatch ⟨"UNAUTHORIZED", 401, none⟩
        ⟨2025, 1, 15, 10, 30, 0, 0⟩ "/api/auth/sign-in").body.timestamp)).map fmtISO =
      some ((authFilterCatch ⟨"UNAUTHORIZED", 401, none⟩
        ⟨2025, 1, 15, 10, 30, 0, 0⟩ "/api/auth/sign-in").body.timestamp) :=
  ⟨by decide,
   c6_filter_timestamp_roundtrips ⟨"UNAUTHORIZED", 401, none⟩
     ⟨2025, 1, 15, 10, 30, 0, 0⟩ "/api/auth/sign-in" (by decide)⟩

/-! ## Hook registrar embedding (`src/auth.module.ts`)

`AuthModule.setupHookMethod` reads, for each of the two hook kinds
(`before` / `after`, in that order), the path tag the `@BeforeHook` /
`@AfterHook` decorator attached to the provider method.  A falsy tag
(`undefined`, or the empty string) makes the registrar `continue` without
splicing.  Otherwise the current slot `hooks[hookType]` is replaced by a
wrapper that first awaits the previously-registered hook (captured at
registration time), then awaits the provider method exactly when the tag
equals the in-flight `ctx.path`.

A hook's observable behaviour here is the sequence of provider-method
invocations it performs, so a hook slot is embedded as a function from the
in-flight context to the list of invoked method identifiers, in execution
order. -/

/-- The part of the Better Auth middleware context the registrar consults. -/
structure HookCtx where
  path : String
deriving DecidableEq, Repr

/-- A registered hook, as its invocation trace: which provider methods run,
in order, for a given in-flight context. -/
def HookFn : Type :=
  HookCtx → List Nat

/-- The mutable `auth.options.hooks` record: one optional slot per kind. -/
structure HooksRecord where
  before : Option HookFn
  after : Option HookFn

/-- The `hooks: {}` configuration `forRoot` guarantees: both slots empty. -/
def HooksRecord.empty : HooksRecord :=
  { before := none, after := none }

/-- Await a hook slot: an absent hook runs nothing. -/
def runSlot : Option HookFn → HookCtx → List Nat
  | none, _ => []
  | some f, ctx => f ctx

/-- The wrapper `createAuthMiddleware(async ctx => ...)` built by
`setupHookMethod`: the original hook (if any) runs first, then the provider
method runs exactly when the tag equals `ctx.path`. -/
def spliceSlot (originalHook : Option HookFn) (hookPath : String) (methodId : Nat) :
    HookFn :=
  fun ctx => runSlot originalHook ctx ++ (if hookPath = ctx.path then [methodId] else [])

/-- A provider method as the registrar sees it: its identity and the path
tags its `@BeforeHook` / `@AfterHook` metadata carry (`none` when the
decorator is absent). -/
structure HookMethodMeta where
  id : Nat
  beforePath : Option String
  afterPath : Option String

/-- JS truthiness of a hook-path tag: `undefined` and `''` are falsy. -/
def truthyPath : Option String → Option String
  | none => none
  | some p => if p = "" then none else some p

/-- Embedding of `AuthModule.setupHookMethod` (src/auth.module.ts, lines
384-415): iterate over `HOOKS = [before, after]`; skip a falsy tag; splice
a truthy one over the slot's current contents. -/
def setupHookMethod (hooks : HooksRecord) (m : HookMethodMeta) : HooksRecord :=
  let hooks' :=
    match truthyPath m.beforePath with
    | none => hooks
    | some p => { hooks with before := some (spliceSlot hooks.before p m.id) }
  match truthyPath m.afterPath with
  | none => hooks'
  | some p => { hooks' with after := some (spliceSlot hooks'.after p m.id) }

/-- Embedding of the registration loop of `AuthModule.setupHooks`: methods
are spliced in discovery order. -/
def setupHooks (hooks : HooksRecord) (methods : List HookMethodMeta) : HooksRecord :=
  methods.foldl setupHookMethod hooks

/-! ## Hook registrar theorems -/

/-- Splicing a method into the after slot leaves the before slot's trace
unchanged, and vice versa. -/
theorem setupHookMethod_before_trace (hooks : HooksRecord) (m : HookMethodMeta)
    (p : String) (hp : truthyPath m.beforePath = some p) (ctx : HookCtx) :
    runSlot (setupHookMethod hooks m).before ctx =
      runSlot hooks.before ctx ++ (if p = ctx.path then [m.id] else []) := by
  unfold setupHookMethod
  rw [hp]
  rcases truthyPath m.afterPath with _ | q <;> simp [runSlot, spliceSlot]

/-- Trace of the after slot once a method with a truthy after tag is
spliced. -/
theorem setupHookMethod_after_trace (hooks : HooksRecord) (m : HookMethodMeta)
    (p : String) (hp : truthyPath m.afterPath = some p) (ctx : HookCtx) :
    runSlot (setupHookMethod hooks m).after ctx =
      runSlot hooks.after ctx ++ (if p = ctx.path then [m.id] else []) := by
  unfold setupHookMethod
  rw [hp]
  rcases truthyPath m.beforePath with _ | q <;> simp [runSlot, spliceSlot]

/-- Claim C7: for every spliced before/after hook method, the
previously-registered hook in that slot always runs first and the new
method runs exactly when its path tag equals the in-flight `ctx.path`
(every spliced method has a truthy tag, so the untagged case never
arises); consequently two after-hooks registered on the same path both
run, in registration order, after whatever was in the slot, and a hook
tagged with path `a` never fires for a request on a different path `b`. -/
theorem c7_hook_splicing (hooks : HooksRecord) (ctx : HookCtx) :
    (∀ (m : HookMethodMeta) (p : String), truthyPath m.beforePath = some p →
      runSlot (setupHookMethod hooks m).before ctx =
        runSlot hooks.before ctx ++ (if p = ctx.path then [m.id] else [])) ∧
    (∀ (m : HookMethodMeta) (p : String), truthyPath m.afterPath = some p →
      runSlot (setupHookMethod hooks m).after ctx =
        runSlot hooks.after ctx ++ (if p = ctx.path then [m.id] else [])) ∧
    (∀ (m₁ m₂ : HookMethodMeta) (p : String),
      truthyPath m₁.afterPath = some p → truthyPath m₂.afterPath = some p →
      ctx.path = p →
      runSlot (setupHooks hooks [m₁, m₂]).after ctx =
        runSlot hooks.after ctx ++ [m₁.id, m₂.id]) ∧
    (∀ (m : HookMethodMeta) (a : String), truthyPath m.afterPath = some a →
      ctx.path ≠ a → m.id ∉ runSlot hooks.after ctx →
      m.id ∉ runSlot (setupHookMethod hooks m).after ctx) := by
  refine ⟨fun m p hp => setupHookMethod_before_trace hooks m p hp ctx,
          fun m p hp => setupHookMethod_after_trace hooks m p hp ctx,
          fun m₁ m₂ p hp₁ hp₂ hctx => ?_, fun m a ha hne hnotin => ?_⟩
  · show runSlot (setupHookMethod (setupHookMethod hooks m₁) m₂).after ctx = _
    rw [setupHookMethod_after_trace _ m₂ p hp₂ ctx,
      setupHookMethod_after_trace hooks m₁ p hp₁ ctx, if_pos hctx.symm, if_pos hctx.symm]
    simp
  · rw [setupHookMethod_after_trace hooks m a ha ctx, if_neg (fun hh => hne hh.symm)]
    simpa using hnotin

/-- Witness for C7: two after-hooks on `/sign-up/email` both fire in
registration order on that path, and a `/sign-in/email` after-hook does not
fire on `/sign-up/email`. -/
theorem c7_witness :
    runSlot (setupHooks HooksRecord.empty
        [⟨1, none, some "/sign-up/email"⟩, ⟨2, none, some "/sign-up/email"⟩]).after
        ⟨"/sign-up/email"⟩ =
      runSlot HooksRecord.empty.after ⟨"/sign-up/email"⟩ ++ [1, 2] ∧
    3 ∉ runSlot (setupHookMethod HooksRecord.empty ⟨3, none, some "/sign-in/email"⟩).after
        ⟨"/sign-up/email"⟩ :=
  ⟨(c7_hook_splicing HooksRecord.empty ⟨"/sign-up/email"⟩).2.2.1
     ⟨1, none, some "/sign-up/email"⟩ ⟨2, none, some "/sign-up/email"⟩
     "/sign-up/email" (by simp [truthyPath]) (by simp [truthyPath]) rfl,
   (c7_hook_splicing HooksRecord.empty ⟨"/sign-up/email"⟩).2.2.2
     ⟨3, none, some "/sign-in/email"⟩ "/sign-in/email" (by simp [truthyPath])
     (by simp) (by simp [runSlot, HooksRecord.empty])⟩

/-! ## Dynamic CORS embedding (`src/auth.module.ts`)

`AuthModule.setupDynamicCors` registers a Fastify `preHandler` hook.  Per
request the hook: returns immediately when there is no `Origin` header;
otherwise converts the request and calls the user's trusted-origins
function inside a `try`; computes `isAllowed`; answers `OPTIONS` with
status 204 (adding the CORS headers only when allowed) and otherwise sets
the simple CORS headers when allowed; on a thrown error it answers
`OPTIONS` with 204 and lets every other request proceed without CORS
headers. -/

/-- The request fields the dynamic CORS hook consults. -/
structure CorsRequest where
  origin : Option String
  method : String
deriving DecidableEq, Repr

/-- What the `preHandler` hook did to the reply: either it returned and the
request proceeds to routing (with the reply headers set so far), or it sent
an empty 204 response itself. -/
inductive CorsHookOutcome where
  | proceed (headers : List (String × String))
  | noContent (headers : List (String × String))
deriving DecidableEq, Repr

/-- Headers set for an allowed `OPTIONS` preflight (source lines 228-236). -/
def corsPreflightHeaders (origin : String) : List (String × String) :=
  [("Access-Control-Allow-Origin", origin),
   ("Access-Control-Allow-Methods", "GET, POST, PUT, DELETE, OPTIONS"),
   ("Access-Control-Allow-Headers", "Content-Type, Authorization, X-Requested-With"),
   ("Access-Control-Allow-Credentials", "true"),
   ("Access-Control-Max-Age", "86400"),
   ("Vary", "Origin")]

/-- Headers set for an allowed non-preflight request (source lines 244-246). -/
def corsSimpleHeaders (origin : String) : List (String × String) :=
  [("Access-Control-Allow-Origin", origin),
   ("Access-Control-Allow-Credentials", "true"),
   ("Vary", "Origin")]

/-- Embedding of the `preHandler` hook installed by
`AuthModule.setupDynamicCors` (src/auth.module.ts, lines 202-263).  The
trusted-origins function is an input; `Except.error` embeds a thrown
evaluation error (from the conversion or the user function inside the
`try`). -/
def dynamicCorsPreHandler {E : Type}
    (trustedOriginsFunc : CorsRequest → Except E (List String))
    (req : CorsRequest) : CorsHookOutcome :=
  match req.origin with
  | none => .proceed []
  | some requestOrigin =>
    match trustedOriginsFunc req with
    | .ok allowedOrigins =>
      let isAllowed := allowedOrigins.contains requestOrigin
      if req.method = "OPTIONS" then
        .noContent (if isAllowed then corsPreflightHeaders requestOrigin else [])
      else
        .proceed (if isAllowed then corsSimpleHeaders requestOrigin else [])
    | .error _ =>
      if req.method = "OPTIONS" then .noContent []
      else .proceed []

/-- Whether the hook itself answered the request with an empty 204. -/
def CorsHookOutcome.sentNoContent : CorsHookOutcome → Bool
  | .noContent _ => true
  | .proceed _ => false

/-! ## Dynamic CORS theorems -/

/-- Claim C8: under function-based trusted origins, every `OPTIONS`
preflight request (an `OPTIONS` request carrying an `Origin` header)
receives a no-content response, whether or not the trusted-origins
function throws; and a non-`OPTIONS` request on which the function throws
proceeds to routing with no CORS headers set. -/
theorem c8_dynamic_cors_options_and_error_paths {E : Type}
    (trustedOriginsFunc : CorsRequest → Except E (List String)) (req : CorsRequest) :
    (req.method = "OPTIONS" → req.origin.isSome →
      (dynamicCorsPreHandler trustedOriginsFunc req).sentNoContent = true) ∧
    (req.method ≠ "OPTIONS" → (∃ e, trustedOriginsFunc req = .error e) →
      dynamicCorsPreHandler trustedOriginsFunc req = .proceed []) := by
  constructor
  · intro hm ho
    rcases req with ⟨o, m⟩
    rcases o with _ | origin
    · simp at ho
    · simp only at hm
      unfold dynamicCorsPreHandler
      rcases trustedOriginsFunc ⟨some origin, m⟩ with e | allowed <;>
        simp [hm, CorsHookOutcome.sentNoContent]
  · intro hm he
    rcases he with ⟨e, he⟩
    rcases req with ⟨o, m⟩
    rcases o with _ | origin
    · simp [dynamicCorsPreHandler]
    · simp only at hm he
      unfold dynamicCorsPreHandler
      simp only [he]
      rw [if_neg hm]

/-- Witness for C8: a throwing trusted-origins function still yields a
no-content answer for an `OPTIONS` preflight, and a throwing function on a
`GET` lets the request proceed with no CORS headers. -/
theorem c8_witness :
    ((("OPTIONS" : String) = "OPTIONS") ∧ (Option.isSome (some "https://app.example") = true) ∧
      (dynamicCorsPreHandler (E := Unit) (fun _ => .error ())
        ⟨some "https://app.example", "OPTIONS"⟩).sentNoContent = true) ∧
    ((("GET" : String) ≠ "OPTIONS") ∧
      dynamicCorsPreHandler (E := Unit) (fun _ => .error ())
        ⟨some "https://app.example", "GET"⟩ = .proceed []) :=
  ⟨⟨rfl, rfl,
    (c8_dynamic_cors_options_and_error_paths (fun _ => .error ())
      ⟨some "https://app.example", "OPTIONS"⟩).1 rfl rfl⟩,
   ⟨by decide,
    (c8_dynamic_cors_options_and_error_paths (fun _ => .error ())
      ⟨some "https://app.example", "GET"⟩).2 (by decide) ⟨(), rfl⟩⟩⟩

/-! ## Module-setup configuration embedding

`AuthModule.setupCors` (src/auth.module.ts, lines 143-177) dispatches on the
provider's `trustedOrigins` setting: disabled by module option, absent
(falsy), a static array, a function, or anything else — the last case throws
synchronously.  `AuthModule.validateAsyncOptions` and
`AuthModule.createAsyncProviders` (legacy module bundled in
src/auth.service.ts, lines 730-746 and 761-845) validate the async
configuration: exactly one of `useFactory` / `useClass` / `useExisting` must
be supplied, otherwise `forRootAsync` throws synchronously. -/

/-- A truthy `trustedOrigins` value: a static origin array, a per-request
function, or a malformed value of any other shape. -/
inductive TrustedOriginsValue (F : Type) where
  | arr (origins : List String)
  | func (f : F)
  | other
deriving DecidableEq, Repr

/-- What `setupCors` configured when it did not throw. -/
inductive CorsMode (F : Type) where
  | disabled
  | skipped
  | staticCors (origins : List String)
  | dynamicCors (f : F)
deriving DecidableEq, Repr

/-- Embedding of `AuthModule.setupCors`: `none` embeds a falsy
`trustedOrigins` setting; `Except.error` embeds the synchronous `throw new
Error(...)`, which nothing in this layer catches. -/
def setupCors {F : Type} (disableTrustedOriginsCors : Bool)
    (trustedOrigins : Option (TrustedOriginsValue F)) : Except String (CorsMode F) :=
  if disableTrustedOriginsCors then .ok .disabled
  else
    match trustedOrigins with
    | none => .ok .skipped
    | some (.arr origins) => .ok (.staticCors origins)
    | some (.func f) => .ok (.dynamicCors f)
    | some .other =>
      .error "Invalid trustedOrigins configuration. Must be string[] or (request: Request) => string[] | Promise<string[]>"

/-- Async configuration options: each configuration method is either absent
(`undefined`) or supplied (with payloads opaque to the validation). -/
structure AsyncOptions (F C X : Type) where
  useFactory : Option F
  useClass : Option C
  useExisting : Option X

/-- The `configMethods` list built by `validateAsyncOptions`: the names of
the supplied configuration methods, in declaration order. -/
def configMethods {F C X : Type} (opts : AsyncOptions F C X) : List String :=
  (if opts.useFactory.isSome then ["useFactory"] else []) ++
  (if opts.useClass.isSome then ["useClass"] else []) ++
  (if opts.useExisting.isSome then ["useExisting"] else [])

/-- Embedding of `AuthModule.validateAsyncOptions` (src/auth.service.ts
bundle, lines 730-746). -/
def validateAsyncOptions {F C X : Type} (opts : AsyncOptions F C X) :
    Except String Unit :=
  let methods := configMethods opts
  if methods.length = 0 then
    .error "Invalid async configuration. Must provide one of: useFactory, useClass, or useExisting."
  else if 1 < methods.length then
    .error ("Invalid async configuration. Cannot provide multiple configuration methods: "
      ++ String.intercalate ", " methods ++ ".")
  else .ok ()

/-- Which provider set `createAsyncProviders` produced. -/
inductive AsyncProviderKind where
  | factory
  | byClass
  | byExisting
deriving DecidableEq, Repr

/-- Embedding of `AuthModule.createAsyncProviders`: dispatch on the first
supplied configuration method; the final throw is unreachable after
validation. -/
def createAsyncProviders {F C X : Type} (opts : AsyncOptions F C X) :
    Except String AsyncProviderKind :=
  if opts.useFactory.isSome then .ok .factory
  else if opts.useClass.isSome then .ok .byClass
  else if opts.useExisting.isSome then .ok .byExisting
  else .error "Invalid async configuration. Must provide useFactory, useClass, or useExisting."

/-- Embedding of `AuthModule.forRootAsync`: validate synchronously, then
build the async providers; a validation throw propagates uncaught. -/
def forRootAsync {F C X : Type} (opts : AsyncOptions F C X) :
    Except String AsyncProviderKind := do
  validateAsyncOptions opts
  createAsyncProviders opts

/-! ## Configuration theorems -/

/-- Claim C9: configuration errors are raised synchronously at module-setup
time and are not recovered: `forRootAsync` throws when none of
`useFactory` / `useClass` / `useExisting` is supplied, and throws (naming
the offenders) when more than one is supplied; `setupCors` throws when CORS
is not disabled and the trusted-origins setting is present but neither an
array of strings nor a function. -/
theorem c9_configuration_errors_thrown_at_setup {F C X : Type}
    (opts : AsyncOptions F C X) :
    ((configMethods opts).length = 0 →
      forRootAsync opts =
        .error "Invalid async configuration. Must provide one of: useFactory, useClass, or useExisting.") ∧
    (1 < (configMethods opts).length →
      forRootAsync opts =
        .error ("Invalid async configuration. Cannot provide multiple configuration methods: "
          ++ String.intercalate ", " (configMethods opts) ++ ".")) ∧
    setupCors (F := F) false (some .other) =
      .error "Invalid trustedOrigins configuration. Must be string[] or (request: Request) => string[] | Promise<string[]>" := by
  refine ⟨fun h0 => ?_, fun h2 => ?_, rfl⟩
  · show (validateAsyncOptions opts >>= fun _ => createAsyncProviders opts) = _
    unfold validateAsyncOptions
    rw [if_pos h0]
    rfl
  · show (validateAsyncOptions opts >>= fun _ => createAsyncProviders opts) = _
    unfold validateAsyncOptions
    rw [if_neg (by omega), if_pos h2]
    rfl

/-- Witness for C9: no method supplied, and both `useFactory` and
`useClass` supplied. -/
theorem c9_witness :
    ((configMethods (AsyncOptions.mk (F := Unit) (C := Unit) (X := Unit)
        none none none)).length = 0 ∧
      forRootAsync (AsyncOptions.mk (F := Unit) (C := Unit) (X := Unit) none none none) =
        .error "Invalid async configuration. Must provide one of: useFactory, useClass, or useExisting.") ∧
    (1 < (configMethods (AsyncOptions.mk (F := Unit) (C := Unit) (X := Unit)
        (some ()) (some ()) none)).length ∧
      forRootAsync (AsyncOptions.mk (F := Unit) (C := Unit) (X := Unit)
          (some ()) (some ()) none) =
        .error ("Invalid async configuration. Cannot provide multiple configuration methods: "
          ++ String.intercalate ", "
              (configMethods (AsyncOptions.mk (F := Unit) (C := Unit) (X := Unit)
                (some ()) (some ()) none)) ++ ".")) :=
  ⟨⟨by decide,
    (c9_configuration_errors_thrown_at_setup
      (AsyncOptions.mk none none none)).1 (by decide)⟩,
   ⟨by decide,
    (c9_configuration_errors_thrown_at_setup
      (AsyncOptions.mk (some ()) (some ()) none)).2.1 (by decide)⟩⟩

end NestBetterAuth
